import Mathlib

/-!
Verification of the media ingestion and object-lifecycle subsystem of an
Express/TypeScript upload server (upload.controller.ts, utils/upload.ts,
s3-object-store.ts) against its natural-language specification.

The TypeScript source is shallowly embedded: every controller becomes a pure
Lean function over explicit state (the metadata collection as a list of
records, the object store as a list of keys) plus oracles for the results of
external calls (S3 puts, ffmpeg, sharp decode, database insert).  String
manipulation mirrors the JavaScript operations (single-character split, join,
toLowerCase, truthiness of strings) with executable definitions.
-/

/-! ### JavaScript string primitives

JavaScript semantics re-implemented structurally so that every definition
evaluates inside the kernel: split(c) on a single-character separator,
Array.join, toLowerCase (ASCII), and truthiness (empty string is falsy).
-/

/-- Word-for-word model of the JavaScript s.split(c) for a one-character
separator, on the character list of the string. -/
def jsSplitChars (c : Char) : List Char → List (List Char)
  | [] => [[]]
  | x :: xs =>
    let r := jsSplitChars c xs
    if x == c then [] :: r
    else
      match r with
      | y :: ys => (x :: y) :: ys
      | [] => [[x]]

/-- JavaScript s.split(c) for a one-character separator, returning strings. -/
def jsSplit (c : Char) (s : String) : List String :=
  (jsSplitChars c s.data).map (fun l => String.mk l)

/-- JavaScript Array.prototype.join(sep). -/
def jsJoin (sep : String) : List String → String
  | [] => ""
  | [x] => x
  | x :: y :: ys => x ++ sep ++ jsJoin sep (y :: ys)

/-- ASCII lower-casing, the effect of JavaScript toLowerCase on the
identifiers and filenames this code handles. -/
def jsToLower (s : String) : String :=
  String.mk (s.data.map Char.toLower)

/-- JavaScript truthiness of a string: the empty string is falsy. -/
def jsTruthy (s : String) : Bool := s ≠ ""

/-- JavaScript a || b for an optional string a (null/undefined and the empty
string fall through to b). -/
def jsOrStr (a : Option String) (b : String) : String :=
  match a with
  | some s => if s = "" then b else s
  | none => b

/-- JavaScript startsWith, via the character lists. -/
def jsStartsWith (s p : String) : Bool :=
  p.data.isPrefixOf s.data

/-- Contiguous-subsequence test: pat occurs somewhere inside l. -/
def charsContain (pat : List Char) : List Char → Bool
  | [] => pat.isEmpty
  | x :: xs => pat.isPrefixOf (x :: xs) || charsContain pat xs

/-- Case-insensitive substring containment: the semantics of a MongoDB
regex clause whose pattern is plain text with the i option. -/
def ciContains (s pat : String) : Bool :=
  charsContain (jsToLower pat).data (jsToLower s).data

/-- MongoDB regex clause applied to a document field: a missing field never
matches. -/
def mongoRegexCI (pat : String) (field : Option String) : Bool :=
  match field with
  | none => false
  | some s => ciContains s pat

/-- Shape check behind mongodb's ObjectId.isValid on a string: exactly 24
hexadecimal characters. -/
def isValidObjectId (s : String) : Bool :=
  s.data.length == 24 && s.data.all (fun c =>
    c.isDigit || ('a' ≤ c && c ≤ 'f') || ('A' ≤ c && c ≤ 'F'))

/-! ### Type classifier (getFileType in utils/upload.ts) -/

/-- Media category, the string union returned by getFileType. -/
inductive FileType
  | image
  | video
  | audio
  | document
  | other
deriving DecidableEq, Repr

/-- String stored in the database for a category (the type field). -/
def FileType.toStr : FileType → String
  | .image => "image"
  | .video => "video"
  | .audio => "audio"
  | .document => "document"
  | .other => "other"

def imageExtensions : List String :=
  ["jpg", "jpeg", "png", "gif", "webp", "bmp", "tiff", "svg"]

def videoExtensions : List String :=
  ["mp4", "avi", "mov", "wmv", "flv", "webm", "mkv", "3gp"]

def audioExtensions : List String :=
  ["mp3", "wav", "ogg", "flac", "aac", "m4a", "wma"]

def documentExtensions : List String :=
  ["pdf", "doc", "docx", "txt", "rtf", "xls", "xlsx", "ppt", "pptx"]

/-- Translation of getFileType: MIME prefix match first; for
application/octet-stream with a truthy filename, the extension table
(filename.toLowerCase().split('.').pop()); then known document MIME
prefixes; else other. -/
def getFileType (mimeType : String) (filename : Option String) : FileType :=
  if jsStartsWith mimeType "image/" then .image
  else if jsStartsWith mimeType "video/" then .video
  else if jsStartsWith mimeType "audio/" then .audio
  else if mimeType == "application/octet-stream"
          && jsTruthy (filename.getD "") && filename.isSome then
    let ext := ((jsSplit '.' (jsToLower (filename.getD ""))).getLast?).getD ""
    if imageExtensions.contains ext then .image
    else if videoExtensions.contains ext then .video
    else if audioExtensions.contains ext then .audio
    else if documentExtensions.contains ext then .document
    else .other
  else if jsStartsWith mimeType "application/pdf"
          || jsStartsWith mimeType "application/msword"
          || jsStartsWith mimeType "application/vnd.openxmlformats"
          || jsStartsWith mimeType "text/" then .document
  else .other

/-! ### Preview deriver (generateImagePreview in utils/upload.ts) -/

def PREVIEW_MAX_WIDTH : Nat := 720
def PREVIEW_MAX_HEIGHT : Nat := 720
def JPEG_QUALITY : Nat := 85

/-- Pixel dimensions that sharp reports for a decodable image. -/
structure ImageInfo where
  width : Nat
  height : Nat
deriving DecidableEq, Repr

/-- Output of a jpeg re-encode of a resized image. -/
structure Derivative where
  width : Nat
  height : Nat
  quality : Nat
  format : String
deriving DecidableEq, Repr

/-- Dimensions produced by sharp resize with fit inside and
withoutEnlargement, in exact integer arithmetic: images already inside the
box are untouched; otherwise the image is scaled down to touch the box from
inside, preserving aspect ratio. -/
def fitInside (w h maxW maxH : Nat) : Nat × Nat :=
  if w ≤ maxW && h ≤ maxH then (w, h)
  else if h * maxW ≤ w * maxH then (maxW, h * maxW / w)
  else (w * maxH / h, maxH)

/-- Translation of generateImagePreview: the argument is the result of the
sharp decode (none when sharp throws, in which case the catch returns null).
The resize runs when metadata.width exceeds MAX_WIDTH or metadata.height
exceeds MAX_HEIGHT (a JavaScript or of the two truthiness-guarded
comparisons); a small-enough image yields null so the caller reuses the
original. -/
def generateImagePreview (decoded : Option ImageInfo) : Option Derivative :=
  match decoded with
  | none => none
  | some m =>
    if PREVIEW_MAX_WIDTH < m.width || PREVIEW_MAX_HEIGHT < m.height then
      let d := fitInside m.width m.height PREVIEW_MAX_WIDTH PREVIEW_MAX_HEIGHT
      some { width := d.1, height := d.2, quality := JPEG_QUALITY, format := "jpeg" }
    else
      none

example : jsSplit '-' "aaaa-bb-c" = ["aaaa", "bb", "c"] := by decide
example : jsSplit '/' "uploads/u1/k" = ["uploads", "u1", "k"] := by decide
example : getFileType "audio/mpeg" (some "t.mp3") = .audio := by decide
example : getFileType "application/pdf" (some "a.pdf") = .document := by decide
example : getFileType "application/octet-stream" (some "A.MOV") = .video := by decide
example : generateImagePreview (some ⟨800, 600⟩)
    = some ⟨720, 540, 85, "jpeg"⟩ := by decide
example : generateImagePreview (some ⟨700, 600⟩) = none := by decide

/-! ### Data model (FileMetadata in upload.model.ts) -/

/-- Nested details block of a stored record. -/
structure FileDetails where
  src : String
  width : Option Nat
  height : Option Nat
  duration : Option Nat
  preview : String
deriving DecidableEq, Repr

/-- Document inserted into the files collection by uploadFile (the field
uploadedAt is modelled as an abstract Nat timestamp). -/
structure FileDoc where
  filename : String
  mimeType : String
  type : FileType
  size : Nat
  s3Key : String
  src : String
  preview : String
  details : FileDetails
  uploadedBy : String
  uploadedAt : Nat
deriving DecidableEq, Repr

/-- String-valued fields of the stored MongoDB document, looked up by field
name; mirrors exactly the keys written by uploadFile (insertOne document
literal), so any other name, in particular originalName, is absent. -/
def FileDoc.getStrField (d : FileDoc) : String → Option String
  | "filename" => some d.filename
  | "mimeType" => some d.mimeType
  | "type" => some d.type.toStr
  | "s3Key" => some d.s3Key
  | "src" => some d.src
  | "preview" => some d.preview
  | "uploadedBy" => some d.uploadedBy
  | _ => none

/-- Record in the files collection: MongoDB _id (rid) plus the document. -/
structure DbRecord where
  rid : String
  doc : FileDoc
deriving DecidableEq, Repr

/-! ### Object store gateway (uploadToS3 in s3-object-store.ts) -/

/-- Outcome of one S3 put as seen by uploadToS3: the configured endpoint URL
may be missing (the function returns null before sending anything), the send
may succeed (a public URL is returned), or the send may throw (uploadToS3
rethrows). -/
inductive S3PutResult
  | noEnvUrl
  | ok
  | putErr (msg : String)
deriving DecidableEq, Repr

/-- Translation of uploadToS3: list of keys for which a PutObjectCommand was
actually sent, and either the returned Option URL or the thrown message. -/
def uploadToS3 (r : S3PutResult) (virtHost key : String) :
    List String × Except String (Option String) :=
  match r with
  | .noEnvUrl => ([], .ok none)
  | .ok => ([key], .ok (some (virtHost ++ "/" ++ key)))
  | .putErr msg => ([key], .error msg)

/-! ### Ingestion orchestrator (uploadFile in upload.controller.ts) -/

def MAX_FILE_SIZE : Nat := 100 * 1024 * 1024

/-- Request file as multer delivers it (buffer contents abstracted away;
what the orchestrator reads from it is name, declared MIME type, size). -/
structure UploadedFile where
  originalname : String
  mimetype : String
  size : Nat
deriving DecidableEq, Repr

/-- Result of extractMediaMetadata (best-effort, every field optional). -/
structure MediaMetadata where
  mimeType : Option String
  width : Option Nat
  height : Option Nat
  duration : Option Nat
deriving DecidableEq, Repr

/-- Results of the external calls made during one run of uploadFile:
configuration strings, the fresh uuid, metadata probing, the sharp decode
inside generateImagePreview, whether a video poster or fallback thumbnail
was produced, the two S3 put outcomes, and the insertOne outcome. -/
structure UploadExternals where
  virtHost : String
  timestamp : String
  fileId : String
  uploadedAt : Nat
  meta : MediaMetadata
  imageDecode : Option ImageInfo
  videoPoster : Bool
  originalPut : S3PutResult
  previewPut : S3PutResult
  insertRes : Except String String
deriving Repr

/-- Response of uploadFile: every failure is a status plus the JSON error
and message fields; success is 201 with the inserted document and its id. -/
inductive UploadResult
  | response (status : Nat) (error : String) (message : String)
  | created (doc : FileDoc) (id : String)
deriving DecidableEq, Repr

/-- Externally visible effects of one run: keys for which an S3 put was
sent, and documents actually persisted by insertOne. -/
structure UploadEffects where
  puts : List String
  inserted : List FileDoc
deriving DecidableEq, Repr

/-- Translation of uploadFile, step by step: auth guard, file-present guard,
size guard, key derivation (uploads/user/date/uuid-name), metadata
extraction, category resolution, unsupported-type rejection, category-
specific preview derivation, original put (null URL throws, caught as 500),
derivative put (audio reuses the original URL instead), document build with
preview falling back to the original URL, insertOne, 201 on success; every
thrown error lands in the catch returning status 500 with message Upload
failed and the thrown text in the error field. -/
def uploadFile (ext : UploadExternals) (userId : Option String)
    (file : Option UploadedFile) : UploadResult × UploadEffects :=
  match userId with
  | none => (.response 401 "UNAUTHORIZED" "User authentication required", ⟨[], []⟩)
  | some uid =>
    match file with
    | none => (.response 400 "NO_FILE" "No file uploaded", ⟨[], []⟩)
    | some f =>
      if MAX_FILE_SIZE < f.size then
        (.response 400 "FILE_TOO_LARGE" "File size exceeds 100MB limit", ⟨[], []⟩)
      else
        let baseKey := "uploads/" ++ uid ++ "/" ++ ext.timestamp
        let s3Key := baseKey ++ "/" ++ ext.fileId ++ "-" ++ f.originalname
        let finalMimeType := jsOrStr ext.meta.mimeType f.mimetype
        let fileType := getFileType finalMimeType (some f.originalname)
        if !(fileType == .image || fileType == .video || fileType == .audio) then
          (.response 400 "UNSUPPORTED_MEDIA_TYPE"
            "File type not supported for preview generation", ⟨[], []⟩)
        else
          let previewKey : Option String :=
            match fileType with
            | .image =>
              match generateImagePreview ext.imageDecode with
              | some _ => some (baseKey ++ "/preview-" ++ ext.fileId ++ ".jpg")
              | none => none
            | .video =>
              if ext.videoPoster then some (baseKey ++ "/poster-" ++ ext.fileId ++ ".jpg")
              else none
            | _ => none
          let finish : List String → String → Option String → UploadResult × UploadEffects :=
            fun puts originalUrl previewUrl =>
              let doc : FileDoc :=
                { filename := f.originalname
                  mimeType := finalMimeType
                  type := fileType
                  size := f.size
                  s3Key := s3Key
                  src := originalUrl
                  preview := jsOrStr previewUrl originalUrl
                  details :=
                    { src := originalUrl
                      width := ext.meta.width
                      height := ext.meta.height
                      duration := ext.meta.duration
                      preview := jsOrStr previewUrl originalUrl }
                  uploadedBy := uid
                  uploadedAt := ext.uploadedAt }
              match ext.insertRes with
              | .error msg => (.response 500 msg "Upload failed", ⟨puts, []⟩)
              | .ok newId => (.created doc newId, ⟨puts, [doc]⟩)
          match uploadToS3 ext.originalPut ext.virtHost s3Key with
          | (p1, .error msg) => (.response 500 msg "Upload failed", ⟨p1, []⟩)
          | (p1, .ok none) =>
            (.response 500 "Media upload failed" "Upload failed", ⟨p1, []⟩)
          | (p1, .ok (some originalUrl)) =>
            match previewKey with
            | some pk =>
              match uploadToS3 ext.previewPut ext.virtHost pk with
              | (p2, .error msg) => (.response 500 msg "Upload failed", ⟨p1 ++ p2, []⟩)
              | (p2, .ok pv) => finish (p1 ++ p2) originalUrl pv
            | none =>
              finish p1 originalUrl
                (if fileType == .audio then some originalUrl else none)

/-! ### Object key scheme reconstruction (getS3KeysForFile) -/

/-- Translation of getS3KeysForFile: always the stored s3Key; then split the
key on '/', take the last path segment, split it on '-' and take index 0 as
the recovered file id, rejoin the leading segments as the base path, and --
for an image whose preview URL is truthy and differs from src, or a video
whose preview URL is truthy -- append the rebuilt derivative key. -/
def getS3KeysForFile (file : FileDoc) : List String :=
  let pathParts := jsSplit '/' file.s3Key
  let filename := (pathParts.getLast?).getD ""
  let fileId := ((jsSplit '-' filename).head?).getD ""
  let basePath := jsJoin "/" pathParts.dropLast
  if file.type == .image && jsTruthy file.preview && file.preview != file.src then
    [file.s3Key, basePath ++ "/preview-" ++ fileId ++ ".jpg"]
  else if file.type == .video && jsTruthy file.preview then
    [file.s3Key, basePath ++ "/poster-" ++ fileId ++ ".jpg"]
  else
    [file.s3Key]

/-! ### Lifecycle manager: single delete (deleteFile) -/

/-- One externally visible operation of the delete path, in program order. -/
inductive DeleteOp
  | s3Del (key : String)
  | dbDel (id : String)
deriving DecidableEq, Repr

/-- Response of deleteFile. -/
inductive DeleteResult
  | response (status : Nat) (error : String) (message : String)
  | deleted (rid : String) (filename : String) (s3Key : String)
      (deletedKeys : List String)
deriving DecidableEq, Repr

/-- Translation of deleteFile: auth guard, ObjectId shape guard, owner-scoped
findOne (404 when absent), key reconstruction, one DeleteObjectCommand per
key with the error swallowed per key (delFails says which sends throw; a
throwing send leaves the stored object in place), then the owner-scoped
deleteOne.  Returns the response, the operation trace in program order, the
remaining collection, and the remaining object-store keys. -/
def deleteFile (db : List DbRecord) (store : List String)
    (delFails : String → Bool) (userId : Option String) (fileId : String) :
    DeleteResult × List DeleteOp × List DbRecord × List String :=
  match userId with
  | none =>
    (.response 401 "UNAUTHORIZED" "User authentication required", [], db, store)
  | some uid =>
    if !(jsTruthy fileId && isValidObjectId fileId) then
      (.response 400 "INVALID_FILE_ID" "Valid file ID required", [], db, store)
    else
      match db.find? (fun r => r.rid == fileId && r.doc.uploadedBy == uid) with
      | none =>
        (.response 404 "FILE_NOT_FOUND"
          "File not found or you do not have permission to delete it", [], db, store)
      | some file =>
        let s3Keys := getS3KeysForFile file.doc
        let trace := s3Keys.map DeleteOp.s3Del ++ [DeleteOp.dbDel fileId]
        let newStore := store.filter (fun k => !(s3Keys.contains k && !delFails k))
        let newDb := db.filter (fun r => !(r.rid == fileId && r.doc.uploadedBy == uid))
        (.deleted file.rid file.doc.filename file.doc.s3Key s3Keys,
          trace, newDb, newStore)

/-! ### Lifecycle manager: bulk delete (bulkDeleteFiles) -/

/-- Outcome of one DeleteObjectsCommand batch: the send may throw (the loop
logs and continues) or report how many keys it confirmed deleted. -/
inductive BatchOutcome
  | throwErr
  | okRes (deletedLen : Nat)
deriving DecidableEq, Repr

/-- Fuel-driven version of the chunking loop (for i = 0; i < n; i += 1000):
with fuel at least the list length it consumes the whole list. -/
def chunkListAux (fuel n : Nat) : List α → List (List α)
  | [] => []
  | l@(_ :: _) =>
    match fuel with
    | 0 => []
    | f + 1 => l.take n :: chunkListAux f n (l.drop n)

/-- Splits a list into consecutive chunks of at most n elements. -/
def chunkList (n : Nat) (l : List α) : List (List α) :=
  chunkListAux l.length n l

/-- Sum of the per-batch confirmed-deleted counts (result.Deleted.length,
0 for a batch whose send threw), folded over batch indices in order. -/
def sumBatchOk (oracle : Nat → BatchOutcome) : Nat → List (List String) → Nat
  | _, [] => 0
  | i, _ :: rest =>
    (match oracle i with
     | .throwErr => 0
     | .okRes n => n) + sumBatchOk oracle (i + 1) rest

/-- Response of bulkDeleteFiles. -/
inductive BulkDeleteResult
  | response (status : Nat) (error : String) (message : String)
  | completed (deletedCount : Nat) (s3ObjectsDeleted : Nat)
      (deletedIds : List String)
deriving DecidableEq, Repr

/-- Externally visible effects of one run of bulkDeleteFiles. -/
structure BulkEffects where
  dbQueried : Bool
  s3Batches : List (List String)
  dbDeletedIds : List String
deriving DecidableEq, Repr

def noBulkEffects : BulkEffects := ⟨false, [], []⟩

/-- Records of the collection matching the owner-scoped id-set find. -/
def ownedFound (db : List DbRecord) (uid : String) (ids : List String) :
    List DbRecord :=
  db.filter (fun r => ids.contains r.rid && r.doc.uploadedBy == uid)

/-- Translation of bulkDeleteFiles: auth guard; fileIds must be a non-empty
array; at most 100 ids; every id must pass ObjectId.isValid or the whole
batch is rejected listing the invalid ones; owner-scoped find of the ids
(404 when none found); key reconstruction over all found records; S3 batch
deletes in chunks of 1000 with a throwing chunk logged and skipped; one
owner-scoped deleteMany of the found ids; 200 with the deleteMany count, the
summed confirmed S3 deletions, and the found records. -/
def bulkDeleteFiles (db : List DbRecord) (oracle : Nat → BatchOutcome)
    (userId : Option String) (fileIds : Option (List String)) :
    BulkDeleteResult × BulkEffects × List DbRecord :=
  match userId with
  | none =>
    (.response 401 "UNAUTHORIZED" "User authentication required", noBulkEffects, db)
  | some uid =>
    match fileIds with
    | none =>
      (.response 400 "INVALID_REQUEST" "Array of file IDs required", noBulkEffects, db)
    | some ids =>
      if ids.isEmpty then
        (.response 400 "INVALID_REQUEST" "Array of file IDs required", noBulkEffects, db)
      else if 100 < ids.length then
        (.response 400 "TOO_MANY_FILES"
          "Maximum 100 files can be deleted at once", noBulkEffects, db)
      else
        let validFileIds := ids.filter isValidObjectId
        if validFileIds.length != ids.length then
          (.response 400 "INVALID_FILE_IDS" "Some file IDs are invalid",
            noBulkEffects, db)
        else
          let files := ownedFound db uid validFileIds
          if files.isEmpty then
            (.response 404 "NO_FILES_FOUND"
              "No files found or you do not have permission to delete them",
              { noBulkEffects with dbQueried := true }, db)
          else
            let allS3Keys := (files.map (fun r => getS3KeysForFile r.doc)).flatten
            let chunks := chunkList 1000 allS3Keys
            let foundIds := files.map (fun r => r.rid)
            let removed := db.filter
              (fun r => foundIds.contains r.rid && r.doc.uploadedBy == uid)
            let newDb := db.filter
              (fun r => !(foundIds.contains r.rid && r.doc.uploadedBy == uid))
            (.completed removed.length (sumBatchOk oracle 0 chunks) foundIds,
              { dbQueried := true, s3Batches := chunks,
                dbDeletedIds := removed.map (fun r => r.rid) }, newDb)

/-! ### Query engine (searchFiles filter construction) -/

/-- Search parameters as the controller destructures req.query (numeric
parameters already parsed; query-string values are strings at runtime, so
presence is what the truthiness guards on the numeric fields observe). -/
structure SearchParams where
  query : Option String
  type : Option String
  mimeType : Option String
  minSize : Option Nat
  maxSize : Option Nat
  startDate : Option Nat
  endDate : Option Nat
deriving DecidableEq, Repr

/-- Mongo filter object built by searchFiles; the text clause is a regex
with the i option targeting the field named originalName. -/
structure SearchFilter where
  uploadedBy : String
  originalNameRegex : Option String
  type : Option String
  mimeType : Option String
  sizeGte : Option Nat
  sizeLte : Option Nat
  dateGte : Option Nat
  dateLte : Option Nat
deriving DecidableEq, Repr

/-- Translation of the filter-building block of searchFiles: each clause is
added only when the corresponding parameter is truthy. -/
def buildSearchFilter (userId : String) (p : SearchParams) : SearchFilter :=
  { uploadedBy := userId
    originalNameRegex :=
      match p.query with
      | some q => if jsTruthy q then some q else none
      | none => none
    type :=
      match p.type with
      | some t => if jsTruthy t then some t else none
      | none => none
    mimeType :=
      match p.mimeType with
      | some m => if jsTruthy m then some m else none
      | none => none
    sizeGte := p.minSize
    sizeLte := p.maxSize
    dateGte := p.startDate
    dateLte := p.endDate }

/-- MongoDB evaluation of the built filter against one stored document:
conjunction of the owner equality, the regex clause looked up by field name
(originalName), and the exact/range clauses. -/
def matchesSearchFilter (flt : SearchFilter) (d : FileDoc) : Bool :=
  d.uploadedBy == flt.uploadedBy
  && (match flt.originalNameRegex with
      | none => true
      | some q => mongoRegexCI q (d.getStrField "originalName"))
  && (match flt.type with
      | none => true
      | some t => d.type.toStr == t)
  && (match flt.mimeType with
      | none => true
      | some m => d.mimeType == m)
  && (match flt.sizeGte with
      | none => true
      | some n => n ≤ d.size)
  && (match flt.sizeLte with
      | none => true
      | some n => d.size ≤ n)
  && (match flt.dateGte with
      | none => true
      | some n => n ≤ d.uploadedAt)
  && (match flt.dateLte with
      | none => true
      | some n => d.uploadedAt ≤ n)

/-! ### Helper lemmas about the resize box -/

/-- Both components of fitInside stay inside the box and never exceed the
input dimensions, whenever the input sticks out of the box. -/
theorem fitInside_bounds (w h : Nat) (hout : 720 < w ∨ 720 < h) :
    (fitInside w h 720 720).1 ≤ 720 ∧ (fitInside w h 720 720).2 ≤ 720
    ∧ (fitInside w h 720 720).1 ≤ w ∧ (fitInside w h 720 720).2 ≤ h := by
  unfold fitInside
  have hbox : ¬(w ≤ 720 && h ≤ 720) = true := by
    simp only [Bool.and_eq_true, decide_eq_true_eq]
    omega
  rw [if_neg hbox]
  by_cases hwl : h * 720 ≤ w * 720
  · rw [if_pos hwl]
    have hhw : h ≤ w := Nat.le_of_mul_le_mul_right hwl (by omega)
    have hw : 720 < w := by omega
    have h1 : h * 720 / w ≤ 720 := by
      calc h * 720 / w ≤ w * 720 / w := Nat.div_le_div_right hwl
        _ = 720 := Nat.mul_div_cancel_left 720 (by omega)
    have h2 : h * 720 / w ≤ h := by
      calc h * 720 / w ≤ h * w / w :=
            Nat.div_le_div_right (Nat.mul_le_mul_left h (Nat.le_of_lt hw))
        _ = h := Nat.mul_div_cancel h (by omega)
    exact ⟨le_refl _, h1, by omega, h2⟩
  · rw [if_neg hwl]
    have hwh : w ≤ h := by
      have := Nat.lt_of_not_le hwl
      exact Nat.le_of_mul_le_mul_right (Nat.le_of_lt this) (by omega)
    have hh : 720 < h := by omega
    have h1 : w * 720 / h ≤ 720 := by
      calc w * 720 / h ≤ h * 720 / h := Nat.div_le_div_right (by omega)
        _ = 720 := Nat.mul_div_cancel_left 720 (by omega)
    have h2 : w * 720 / h ≤ w := by
      calc w * 720 / h ≤ w * h / h :=
            Nat.div_le_div_right (Nat.mul_le_mul_left w (Nat.le_of_lt hh))
        _ = w := Nat.mul_div_cancel w (by omega)
    exact ⟨h1, le_refl _, h2, by omega⟩

/-! ### Claim C2 -/

/-- Claim C2, counterexample: the claim says a resized derivative is
produced if and only if both dimensions exceed 720; on a decoded 800 by 600
image only the width exceeds 720, yet the deriver does produce a resized
derivative. -/
theorem imagePreview_not_both_dims_counterexample :
    generateImagePreview (some ⟨800, 600⟩) = some ⟨720, 540, 85, "jpeg"⟩
    ∧ ¬(720 < 800 ∧ 720 < 600) := by
  exact ⟨by decide, by decide⟩

/-- Claim C2 as amended: the preview deriver produces a resized derivative
if and only if at least one of the decoded dimensions exceeds 720 pixels
(and the decode succeeded); when it resizes, the output fits inside the 720
by 720 box without enlargement, re-encoded as jpeg at fixed quality 85;
otherwise it returns no derivative so the caller reuses the original. -/
theorem imagePreview_resizes_iff_either_dim_exceeds (w h : Nat) :
    (generateImagePreview none = none)
    ∧ (w ≤ 720 → h ≤ 720 → generateImagePreview (some ⟨w, h⟩) = none)
    ∧ (720 < w ∨ 720 < h →
        ∃ d, generateImagePreview (some ⟨w, h⟩) = some d
          ∧ d.width ≤ 720 ∧ d.height ≤ 720 ∧ d.width ≤ w ∧ d.height ≤ h
          ∧ d.quality = 85 ∧ d.format = "jpeg") := by
  refine ⟨rfl, ?_, ?_⟩
  · intro hw hh
    simp only [generateImagePreview, PREVIEW_MAX_WIDTH, PREVIEW_MAX_HEIGHT]
    rw [if_neg]
    simp only [Bool.or_eq_true, decide_eq_true_eq]
    omega
  · intro hout
    have hb := fitInside_bounds w h hout
    refine ⟨⟨(fitInside w h 720 720).1, (fitInside w h 720 720).2, 85, "jpeg"⟩, ?_,
      hb.1, hb.2.1, hb.2.2.1, hb.2.2.2, rfl, rfl⟩
    simp only [generateImagePreview, PREVIEW_MAX_WIDTH, PREVIEW_MAX_HEIGHT,
      JPEG_QUALITY]
    rw [if_pos]
    simp only [Bool.or_eq_true, decide_eq_true_eq]
    omega

/-- Claim C2 amended, witness: an 800 by 600 decode yields a derivative
inside the box at quality 85. -/
theorem imagePreview_resizes_witness :
    ∃ d, generateImagePreview (some ⟨800, 600⟩) = some d
      ∧ d.width ≤ 720 ∧ d.height ≤ 720 ∧ d.width ≤ 800 ∧ d.height ≤ 600
      ∧ d.quality = 85 ∧ d.format = "jpeg" :=
  (imagePreview_resizes_iff_either_dim_exceeds 800 600).2.2 (Or.inl (by decide))

/-! ### Claim C1 -/

def c1file : UploadedFile := ⟨"photo.jpg", "image/png", 2048⟩

/-- External-call results of a successful image ingestion whose uuid has the
standard hyphenated v4 shape. -/
def c1ext : UploadExternals :=
  { virtHost := "https://cdn.example.com"
    timestamp := "2026-10-11"
    fileId := "aaaaaaaa-bbbb-4ccc-8ddd-eeeeeeeeeeee"
    uploadedAt := 0
    meta := ⟨none, some 800, some 600, none⟩
    imageDecode := some ⟨800, 600⟩
    videoPoster := false
    originalPut := .ok
    previewPut := .ok
    insertRes := .ok "64b0c0ffee0123456789abcd" }

def c1primaryKey : String :=
  "uploads/u1/2026-10-11/aaaaaaaa-bbbb-4ccc-8ddd-eeeeeeeeeeee-photo.jpg"

def c1previewKey : String :=
  "uploads/u1/2026-10-11/preview-aaaaaaaa-bbbb-4ccc-8ddd-eeeeeeeeeeee.jpg"

/-- Record produced at write time by the run described by c1ext. -/
def c1doc : FileDoc :=
  { filename := "photo.jpg"
    mimeType := "image/png"
    type := .image
    size := 2048
    s3Key := c1primaryKey
    src := "https://cdn.example.com/" ++ c1primaryKey
    preview := "https://cdn.example.com/" ++ c1previewKey
    details :=
      { src := "https://cdn.example.com/" ++ c1primaryKey
        width := some 800
        height := some 600
        duration := none
        preview := "https://cdn.example.com/" ++ c1previewKey }
    uploadedBy := "u1"
    uploadedAt := 0 }

/-- Claim C1, evaluated at the failing input: write time puts the original
at the primary key and the preview at preview-uuid.jpg for the full
hyphenated uuid, but delete-time reconstruction splits the final path
segment on the hyphen and keeps only the first token of the uuid, rebuilding
preview-aaaaaaaa.jpg; the key actually written at upload time is not among
the reconstructed keys. -/
theorem keyReconstruction_misses_written_preview_key :
    uploadFile c1ext (some "u1") (some c1file)
      = (.created c1doc "64b0c0ffee0123456789abcd",
         ⟨[c1primaryKey, c1previewKey], [c1doc]⟩)
    ∧ getS3KeysForFile c1doc
      = [c1primaryKey, "uploads/u1/2026-10-11/preview-aaaaaaaa.jpg"]
    ∧ c1previewKey ∉ getS3KeysForFile c1doc :=
  ⟨by decide, by decide, by decide⟩

/-! ### Claim C3 -/

/-- Claim C3: when the resolved category is neither image nor video nor
audio, ingestion answers with the unsupported-type validation error, sends
no S3 put at all and persists nothing. -/
theorem unsupported_category_rejected_without_writes
    (ext : UploadExternals) (uid : String) (f : UploadedFile)
    (hsize : f.size ≤ MAX_FILE_SIZE)
    (hft : getFileType (jsOrStr ext.meta.mimeType f.mimetype) (some f.originalname)
             = .document
           ∨ getFileType (jsOrStr ext.meta.mimeType f.mimetype) (some f.originalname)
             = .other) :
    uploadFile ext (some uid) (some f)
      = (.response 400 "UNSUPPORTED_MEDIA_TYPE"
          "File type not supported for preview generation", ⟨[], []⟩) := by
  have hns : ¬ MAX_FILE_SIZE < f.size := by omega
  rcases hft with h | h <;>
    simp [uploadFile, h, hns]

/-- Claim C3, witness: a pdf upload is rejected as unsupported with no put
and no insert. -/
theorem unsupported_category_witness :
    uploadFile c1ext (some "u1") (some ⟨"doc.pdf", "application/pdf", 7⟩)
      = (.response 400 "UNSUPPORTED_MEDIA_TYPE"
          "File type not supported for preview generation", ⟨[], []⟩) :=
  unsupported_category_rejected_without_writes c1ext "u1"
    ⟨"doc.pdf", "application/pdf", 7⟩ (by decide) (Or.inl (by decide))

/-! ### Claim C4 -/

/-- JavaScript or of a present value with itself is the value. -/
theorem jsOrStr_some_self (u : String) : jsOrStr (some u) u = u := by
  simp [jsOrStr]

/-- Claim C4: a successfully ingested audio payload produces a record whose
preview URL equals its src URL (also inside details), and the puts list has
exactly the original key: one object-store write, no derivative write. -/
theorem audio_upload_single_write
    (ext : UploadExternals) (uid : String) (f : UploadedFile) (newId : String)
    (hsize : f.size ≤ MAX_FILE_SIZE)
    (hft : getFileType (jsOrStr ext.meta.mimeType f.mimetype) (some f.originalname)
             = .audio)
    (horig : ext.originalPut = .ok)
    (hins : ext.insertRes = .ok newId) :
    ∃ doc,
      uploadFile ext (some uid) (some f)
        = (.created doc newId,
           ⟨["uploads/" ++ uid ++ "/" ++ ext.timestamp ++ "/" ++ ext.fileId
               ++ "-" ++ f.originalname], [doc]⟩)
      ∧ doc.preview = doc.src ∧ doc.details.preview = doc.details.src := by
  have hns : ¬ MAX_FILE_SIZE < f.size := by omega
  simp [uploadFile, hft, hns, horig, hins, uploadToS3]
  exact jsOrStr_some_self _

/-- Claim C4, witness: a concrete mp3 ingestion writes one object and its
record has preview equal to src. -/
theorem audio_upload_witness :
    ∃ doc,
      uploadFile
        { virtHost := "https://cdn.example.com", timestamp := "2026-10-11"
          fileId := "11111111-2222-4333-8444-555555555555", uploadedAt := 0
          meta := ⟨some "audio/mpeg", none, none, some 180⟩
          imageDecode := none, videoPoster := false
          originalPut := .ok, previewPut := .ok
          insertRes := .ok "64b0c0ffee0123456789abce" }
        (some "u1") (some ⟨"track.mp3", "application/octet-stream", 900⟩)
        = (.created doc "64b0c0ffee0123456789abce",
           ⟨["uploads/u1/2026-10-11/11111111-2222-4333-8444-555555555555-track.mp3"],
            [doc]⟩)
      ∧ doc.preview = doc.src ∧ doc.details.preview = doc.details.src :=
  audio_upload_single_write _ "u1" _ _ (by decide) (by decide) rfl rfl

/-! ### Claim C10 -/

/-- Claim C10: when the original object was put successfully but the
derivative put throws, the whole ingestion aborts through the catch with a
500 server error; the puts list shows the original key already written and
the derivative key attempted, yet nothing is persisted to the metadata
store, so the written original is an orphaned object. -/
theorem derivative_put_failure_orphans_original
    (ext : UploadExternals) (uid : String) (f : UploadedFile) (msg : String)
    (hsize : f.size ≤ MAX_FILE_SIZE)
    (hft : getFileType (jsOrStr ext.meta.mimeType f.mimetype) (some f.originalname)
             = .image)
    (hdec : (generateImagePreview ext.imageDecode).isSome)
    (horig : ext.originalPut = .ok)
    (hprev : ext.previewPut = .putErr msg) :
    uploadFile ext (some uid) (some f)
      = (.response 500 msg "Upload failed",
         ⟨["uploads/" ++ uid ++ "/" ++ ext.timestamp ++ "/" ++ ext.fileId
             ++ "-" ++ f.originalname,
           "uploads/" ++ uid ++ "/" ++ ext.timestamp ++ "/preview-"
             ++ ext.fileId ++ ".jpg"], []⟩) := by
  have hns : ¬ MAX_FILE_SIZE < f.size := by omega
  obtain ⟨d, hd⟩ := Option.isSome_iff_exists.mp hdec
  simp [uploadFile, hft, hns, horig, hprev, hd, uploadToS3]

/-- Claim C10, witness: a concrete oversized-image ingestion whose preview
put throws aborts with the 500 response after having written the original. -/
theorem derivative_put_failure_witness :
    uploadFile
      { virtHost := "https://cdn.example.com", timestamp := "2026-10-11"
        fileId := "11111111-2222-4333-8444-555555555555", uploadedAt := 0
        meta := ⟨some "image/jpeg", some 1500, some 1000, none⟩
        imageDecode := some ⟨1500, 1000⟩, videoPoster := false
        originalPut := .ok, previewPut := .putErr "network reset"
        insertRes := .ok "64b0c0ffee0123456789abcf" }
      (some "u1") (some ⟨"big.jpg", "image/jpeg", 2097152⟩)
      = (.response 500 "network reset" "Upload failed",
         ⟨["uploads/u1/2026-10-11/11111111-2222-4333-8444-555555555555-big.jpg",
           "uploads/u1/2026-10-11/preview-11111111-2222-4333-8444-555555555555.jpg"],
          []⟩) :=
  derivative_put_failure_orphans_original _ "u1" _ "network reset"
    (by decide) (by decide) (by decide) rfl rfl

/-! ### Claim C5 -/

def c5file : UploadedFile := ⟨"track.mp3", "audio/mpeg", 900⟩

/-- Run whose original put returns null because the object-store endpoint
configuration is missing: uploadFile throws Media upload failed before any
insert (a storage failure; nothing was sent to S3). -/
def c5extStorage : UploadExternals :=
  { virtHost := "https://cdn.example.com", timestamp := "2026-10-11"
    fileId := "11111111-2222-4333-8444-555555555555", uploadedAt := 0
    meta := ⟨none, none, none, none⟩
    imageDecode := none, videoPoster := false
    originalPut := .noEnvUrl, previewPut := .ok
    insertRes := .ok "64b0c0ffee0123456789abd0" }

/-- Run whose puts succeed but whose insertOne throws with the same message
text (a persistence failure; the original was written). -/
def c5extInsert : UploadExternals :=
  { virtHost := "https://cdn.example.com", timestamp := "2026-10-11"
    fileId := "11111111-2222-4333-8444-555555555555", uploadedAt := 0
    meta := ⟨none, none, none, none⟩
    imageDecode := none, videoPoster := false
    originalPut := .ok, previewPut := .ok
    insertRes := .error "Media upload failed" }

/-- Claim C5, counterexample: a storage failure and a persistence failure
produce byte-identical responses (status 500, message Upload failed, error
field the thrown text), even though the two runs are genuinely different
failure modes, as their object-store effects show; the response does not
carry a stable kind separating them. -/
theorem storage_persistence_same_response_counterexample :
    (uploadFile c5extStorage (some "u1") (some c5file)).1
      = (uploadFile c5extInsert (some "u1") (some c5file)).1
    ∧ (uploadFile c5extStorage (some "u1") (some c5file)).1
      = .response 500 "Media upload failed" "Upload failed"
    ∧ (uploadFile c5extStorage (some "u1") (some c5file)).2.puts = []
    ∧ (uploadFile c5extInsert (some "u1") (some c5file)).2.puts
      = ["uploads/u1/2026-10-11/11111111-2222-4333-8444-555555555555-track.mp3"] :=
  ⟨by decide, by decide, by decide, by decide⟩

/-- Claim C5 as amended: unauthorized, no-file, too-large and unsupported-
type each return a distinct stable error code, but an object-store put
failure and a metadata insert failure both surface as the same generic 500
response with message Upload failed and only the propagated exception text
in the error field, so those two are not distinguished by a stable kind. -/
theorem upload_error_kinds
    (ext : UploadExternals) (uid : String) (f : UploadedFile) (msg : String) :
    ((uploadFile ext none (some f)).1
       = .response 401 "UNAUTHORIZED" "User authentication required")
    ∧ ((uploadFile ext (some uid) none).1
       = .response 400 "NO_FILE" "No file uploaded")
    ∧ (MAX_FILE_SIZE < f.size →
        (uploadFile ext (some uid) (some f)).1
          = .response 400 "FILE_TOO_LARGE" "File size exceeds 100MB limit")
    ∧ (f.size ≤ MAX_FILE_SIZE →
        getFileType (jsOrStr ext.meta.mimeType f.mimetype) (some f.originalname)
          = .audio →
        (ext.originalPut = .putErr msg →
          (uploadFile ext (some uid) (some f)).1
            = .response 500 msg "Upload failed")
        ∧ (ext.originalPut = .ok → ext.insertRes = .error msg →
          (uploadFile ext (some uid) (some f)).1
            = .response 500 msg "Upload failed")) := by
  refine ⟨rfl, rfl, ?_, ?_⟩
  · intro hbig
    simp [uploadFile, hbig]
  · intro hsize hft
    have hns : ¬ MAX_FILE_SIZE < f.size := by omega
    constructor
    · intro horig
      simp [uploadFile, hft, hns, horig, uploadToS3]
    · intro horig hins
      simp [uploadFile, hft, hns, horig, hins, uploadToS3]

/-- Claim C5 amended, witness: a run whose original put throws with the text
boom answers 500 with message Upload failed and error boom. -/
theorem upload_error_kinds_witness :
    (uploadFile
      { virtHost := "https://cdn.example.com", timestamp := "2026-10-11"
        fileId := "11111111-2222-4333-8444-555555555555", uploadedAt := 0
        meta := ⟨none, none, none, none⟩
        imageDecode := none, videoPoster := false
        originalPut := .putErr "boom", previewPut := .ok
        insertRes := .ok "64b0c0ffee0123456789abd1" }
      (some "u1") (some ⟨"track.mp3", "audio/mpeg", 900⟩)).1
      = .response 500 "boom" "Upload failed" :=
  ((upload_error_kinds _ "u1" ⟨"track.mp3", "audio/mpeg", 900⟩ "boom").2.2.2
    (by decide) (by decide)).1 rfl

/-! ### Claim C6 -/

/-- Filtering drops length strictly when some element fails the test. -/
theorem length_filter_lt_of_mem_not {α : Type} (l : List α) (p : α → Bool)
    (x : α) (hx : x ∈ l) (hp : ¬ p x) :
    (l.filter p).length < l.length := by
  induction l with
  | nil => cases hx
  | cons a as ih =>
    cases hx with
    | head =>
      simp only [List.filter_cons]
      rw [if_neg (by simpa using hp)]
      have := List.length_filter_le p as
      simp only [List.length_cons]
      omega
    | tail _ hmem =>
      simp only [List.filter_cons]
      split
      · simp only [List.length_cons]
        exact Nat.succ_lt_succ (ih hmem)
      · simp only [List.length_cons]
        exact Nat.lt_succ_of_lt (ih hmem)

/-- Claim C6: a bulk delete with more than 100 ids is answered with the
batch-size error before id validation runs (the response is the size error
even when ids are malformed), and a batch within the cap containing any
malformed id is rejected whole; in both cases no record lookup, no S3 batch,
no database deletion takes place and the collection is unchanged. -/
theorem bulk_delete_rejected_before_any_work
    (db : List DbRecord) (oracle : Nat → BatchOutcome) (uid : String)
    (ids : List String)
    (h : 100 < ids.length
         ∨ (ids.length ≤ 100 ∧ ∃ x ∈ ids, ¬ isValidObjectId x)) :
    bulkDeleteFiles db oracle (some uid) (some ids)
      = (.response 400
           (if 100 < ids.length then "TOO_MANY_FILES" else "INVALID_FILE_IDS")
           (if 100 < ids.length then "Maximum 100 files can be deleted at once"
            else "Some file IDs are invalid"),
         noBulkEffects, db) := by
  rcases h with hlen | ⟨hle, x, hx, hinv⟩
  · have hne : ids.isEmpty = false := by
      cases ids with
      | nil => simp at hlen
      | cons a as => simp
    simp [bulkDeleteFiles, hne, hlen]
  · have hne : ids.isEmpty = false := by
      cases ids with
      | nil => cases hx
      | cons a as => simp
    have hnl : ¬ 100 < ids.length := by omega
    have hflt : (ids.filter isValidObjectId).length ≠ ids.length :=
      Nat.ne_of_lt (length_filter_lt_of_mem_not ids isValidObjectId x hx hinv)
    simp [bulkDeleteFiles, hne, hnl, hflt]

/-- Claim C6, witness: 101 well-formed ids are rejected with the batch-size
error, leaving the collection untouched, with no lookup and no deletion. -/
theorem bulk_delete_rejected_witness :
    bulkDeleteFiles [] (fun _ => .okRes 0) (some "u1")
      (some (List.replicate 101 "649f1f77bcf86cd799439011"))
      = (.response 400 "TOO_MANY_FILES" "Maximum 100 files can be deleted at once",
         noBulkEffects, []) := by
  have h := bulk_delete_rejected_before_any_work [] (fun _ => .okRes 0) "u1"
    (List.replicate 101 "649f1f77bcf86cd799439011") (Or.inl (by decide))
  simpa using h

/-! ### Claim C7 -/

/-- Claim C7: a valid bulk-delete batch mixing owned and not-owned ids
succeeds (the not-owned ids are silently excluded, no error), removes
exactly the owner-scoped records matching the requested ids, and reports a
deleted count equal to the number of owned records found, strictly below
the input length whenever some requested id has no owned record. -/
theorem bulk_delete_owner_scoped
    (db : List DbRecord) (oracle : Nat → BatchOutcome) (uid : String)
    (ids : List String)
    (hvalid : ∀ x ∈ ids, isValidObjectId x)
    (hle : ids.length ≤ 100)
    (hnodupDb : (db.map DbRecord.rid).Nodup)
    (hnodupIds : ids.Nodup)
    (howned : ∃ r ∈ db, r.rid ∈ ids ∧ r.doc.uploadedBy = uid)
    (hmix : ∃ x ∈ ids, ∀ r ∈ db, r.rid = x → r.doc.uploadedBy ≠ uid) :
    (∃ n, (bulkDeleteFiles db oracle (some uid) (some ids)).1
        = .completed (ownedFound db uid ids).length n
            ((ownedFound db uid ids).map DbRecord.rid))
    ∧ (bulkDeleteFiles db oracle (some uid) (some ids)).2.2
        = db.filter (fun r => !(ids.contains r.rid && r.doc.uploadedBy == uid))
    ∧ (ownedFound db uid ids).length < ids.length := by
  obtain ⟨r, hrdb, hrid, hro⟩ := howned
  obtain ⟨x, hxid, hxno⟩ := hmix
  have hfilter : ids.filter isValidObjectId = ids := List.filter_eq_self.mpr hvalid
  have hempty : ids.isEmpty = false := by
    cases ids with
    | nil => cases hrid
    | cons a as => simp
  have hnl : ¬ 100 < ids.length := Nat.not_lt.mpr hle
  have hrfiles : r ∈ ownedFound db uid ids := by
    simp only [ownedFound, List.mem_filter]
    refine ⟨hrdb, ?_⟩
    simp [List.elem_iff, hrid, hro]
  have hfne : (ownedFound db uid ids).isEmpty = false := by
    rw [List.isEmpty_eq_false]
    exact List.ne_nil_of_mem hrfiles
  have hpoint : ∀ y ∈ db,
      (((ownedFound db uid ids).map DbRecord.rid).contains y.rid
        && (y.doc.uploadedBy == uid))
      = (ids.contains y.rid && (y.doc.uploadedBy == uid)) := by
    intro y hy
    cases howner : (y.doc.uploadedBy == uid) with
    | false => simp
    | true =>
      simp only [Bool.and_true]
      rw [Bool.eq_iff_iff]
      simp only [List.elem_iff, List.mem_map]
      constructor
      · rintro ⟨f, hf, hfy⟩
        have hfdb : f ∈ db := List.mem_of_mem_filter hf
        have : f = y := List.inj_on_of_nodup_map hnodupDb hfdb hy hfy
        subst this
        have := (List.mem_filter.mp hf).2
        simp only [Bool.and_eq_true, List.elem_iff] at this
        exact this.1
      · intro hmem
        refine ⟨y, ?_, rfl⟩
        simp only [ownedFound, List.mem_filter]
        exact ⟨hy, by simp [List.elem_iff, hmem, howner]⟩
  have hremoved : db.filter (fun y =>
        ((ownedFound db uid ids).map DbRecord.rid).contains y.rid
          && (y.doc.uploadedBy == uid))
      = ownedFound db uid ids := by
    unfold ownedFound
    exact List.filter_congr hpoint
  have hkept : db.filter (fun y =>
        !(((ownedFound db uid ids).map DbRecord.rid).contains y.rid
          && (y.doc.uploadedBy == uid)))
      = db.filter (fun y => !(ids.contains y.rid && (y.doc.uploadedBy == uid))) := by
    apply List.filter_congr
    intro y hy
    rw [hpoint y hy]
  have hsub : ∀ i ∈ (ownedFound db uid ids).map DbRecord.rid, i ∈ ids := by
    intro i hi
    obtain ⟨f, hf, hfi⟩ := List.mem_map.mp hi
    have := (List.mem_filter.mp hf).2
    simp only [Bool.and_eq_true, List.elem_iff] at this
    exact hfi ▸ this.1
  have hxnot : x ∉ (ownedFound db uid ids).map DbRecord.rid := by
    intro hx
    obtain ⟨f, hf, hfx⟩ := List.mem_map.mp hx
    have hfdb : f ∈ db := List.mem_of_mem_filter hf
    have hfp := (List.mem_filter.mp hf).2
    simp only [Bool.and_eq_true, List.elem_iff, beq_iff_eq] at hfp
    exact hxno f hfdb hfx hfp.2
  have hnodupFound : ((ownedFound db uid ids).map DbRecord.rid).Nodup := by
    refine hnodupDb.sublist ?_
    exact List.Sublist.map DbRecord.rid (List.filter_sublist db)
  have hcount : (ownedFound db uid ids).length < ids.length := by
    have h1 : ((ownedFound db uid ids).map DbRecord.rid).length
        = (ownedFound db uid ids).length := List.length_map _ _
    have h2 : ((ownedFound db uid ids).map DbRecord.rid).toFinset.card
        = ((ownedFound db uid ids).map DbRecord.rid).length :=
      List.toFinset_card_of_nodup hnodupFound
    have h3 : ids.toFinset.card = ids.length := List.toFinset_card_of_nodup hnodupIds
    have hss : ((ownedFound db uid ids).map DbRecord.rid).toFinset ⊆ ids.toFinset := by
      intro i hi
      rw [List.mem_toFinset] at hi ⊢
      exact hsub i hi
    have hlt : ((ownedFound db uid ids).map DbRecord.rid).toFinset.card
        < ids.toFinset.card := by
      apply Finset.card_lt_card
      rw [Finset.ssubset_iff_of_subset hss]
      exact ⟨x, List.mem_toFinset.mpr hxid, fun hx => hxnot (List.mem_toFinset.mp hx)⟩
    omega
  have hout : bulkDeleteFiles db oracle (some uid) (some ids)
      = (.completed (ownedFound db uid ids).length
          (sumBatchOk oracle 0 (chunkList 1000
            (((ownedFound db uid ids).map (fun t => getS3KeysForFile t.doc)).flatten)))
          ((ownedFound db uid ids).map DbRecord.rid),
         { dbQueried := true,
           s3Batches := chunkList 1000
             (((ownedFound db uid ids).map (fun t => getS3KeysForFile t.doc)).flatten),
           dbDeletedIds := (ownedFound db uid ids).map DbRecord.rid },
         db.filter (fun y => !(ids.contains y.rid && (y.doc.uploadedBy == uid)))) := by
    simp only [bulkDeleteFiles, hempty, hnl, hfilter, hfne, bne_self_eq_false,
      Bool.false_eq_true, if_false, hremoved, hkept]
  refine ⟨⟨sumBatchOk oracle 0 (chunkList 1000
      (((ownedFound db uid ids).map (fun t => getS3KeysForFile t.doc)).flatten)), ?_⟩,
    ?_, hcount⟩
  · rw [hout]
  · rw [hout]

/-- Record owned by user u1 used in the bulk-delete witness. -/
def wrecA : DbRecord :=
  { rid := "649f1f77bcf86cd799439011"
    doc :=
      { filename := "a.mp3", mimeType := "audio/mpeg", type := .audio, size := 1
        s3Key := "uploads/u1/2026-10-11/11111111-2222-4333-8444-555555555555-a.mp3"
        src := "https://cdn.example.com/uploads/u1/2026-10-11/11111111-2222-4333-8444-555555555555-a.mp3"
        preview := "https://cdn.example.com/uploads/u1/2026-10-11/11111111-2222-4333-8444-555555555555-a.mp3"
        details :=
          { src := "https://cdn.example.com/uploads/u1/2026-10-11/11111111-2222-4333-8444-555555555555-a.mp3"
            width := none, height := none, duration := some 60
            preview := "https://cdn.example.com/uploads/u1/2026-10-11/11111111-2222-4333-8444-555555555555-a.mp3" }
        uploadedBy := "u1", uploadedAt := 0 } }

/-- Record owned by another user, requested in the same batch. -/
def wrecB : DbRecord :=
  { rid := "649f1f77bcf86cd799439012"
    doc := { wrecA.doc with uploadedBy := "u2" } }

def wdb : List DbRecord := [wrecA, wrecB]

def wids : List String := ["649f1f77bcf86cd799439011", "649f1f77bcf86cd799439012"]

/-- Claim C7, witness: a batch naming one owned and one not-owned record
succeeds, removes only the owned record, and reports deleted count 1, not
the input length 2. -/
theorem bulk_delete_owner_scoped_witness :
    (∃ n, (bulkDeleteFiles wdb (fun _ => .okRes 0) (some "u1") (some wids)).1
        = .completed (ownedFound wdb "u1" wids).length n
            ((ownedFound wdb "u1" wids).map DbRecord.rid))
    ∧ (bulkDeleteFiles wdb (fun _ => .okRes 0) (some "u1") (some wids)).2.2
        = wdb.filter (fun r => !(wids.contains r.rid && r.doc.uploadedBy == "u1"))
    ∧ (ownedFound wdb "u1" wids).length < wids.length :=
  bulk_delete_owner_scoped wdb (fun _ => .okRes 0) "u1" wids
    (by decide) (by decide) (by decide) (by decide)
    ⟨wrecA, by decide, by decide, by decide⟩
    ⟨"649f1f77bcf86cd799439012", by decide, by decide⟩

/-! ### Claim C9 -/

/-- Claim C9: once the record is found under the owner scope, the delete
path reconstructs the candidate keys and its operation trace is exactly the
object-store deletions followed by the metadata deletion (the database
delete is last, everything before it is an object-store delete of a
reconstructed key); the response and the resulting collection do not depend
on the per-key failure oracle nor on which objects actually exist, so a
missing preview object never prevents the metadata record's removal. -/
theorem deleteFile_db_removal_after_all_object_deletes
    (db : List DbRecord) (store : List String) (delFails : String → Bool)
    (uid fileId : String) (file : DbRecord)
    (hvalid : isValidObjectId fileId)
    (hfind : db.find? (fun r => r.rid == fileId && r.doc.uploadedBy == uid)
               = some file) :
    (deleteFile db store delFails (some uid) fileId).1
      = .deleted file.rid file.doc.filename file.doc.s3Key
          (getS3KeysForFile file.doc)
    ∧ (deleteFile db store delFails (some uid) fileId).2.1
      = (getS3KeysForFile file.doc).map DeleteOp.s3Del ++ [DeleteOp.dbDel fileId]
    ∧ ((deleteFile db store delFails (some uid) fileId).2.1).getLast?
      = some (DeleteOp.dbDel fileId)
    ∧ (∀ op ∈ ((deleteFile db store delFails (some uid) fileId).2.1).dropLast,
        ∃ k ∈ getS3KeysForFile file.doc, op = DeleteOp.s3Del k)
    ∧ (deleteFile db store delFails (some uid) fileId).2.2.1
      = db.filter (fun r => !(r.rid == fileId && r.doc.uploadedBy == uid))
    ∧ (∀ g : String → Bool, ∀ st : List String,
        (deleteFile db st g (some uid) fileId).1
          = (deleteFile db store delFails (some uid) fileId).1
        ∧ (deleteFile db st g (some uid) fileId).2.2.1
          = (deleteFile db store delFails (some uid) fileId).2.2.1) := by
  have htr : jsTruthy fileId = true := by
    by_contra h
    have : fileId = "" := by
      simpa [jsTruthy] using h
    subst this
    simp [isValidObjectId] at hvalid
  have hred : ∀ (g : String → Bool) (st : List String),
      deleteFile db st g (some uid) fileId
        = (.deleted file.rid file.doc.filename file.doc.s3Key
             (getS3KeysForFile file.doc),
           (getS3KeysForFile file.doc).map DeleteOp.s3Del
             ++ [DeleteOp.dbDel fileId],
           db.filter (fun r => !(r.rid == fileId && r.doc.uploadedBy == uid)),
           st.filter (fun k =>
             !((getS3KeysForFile file.doc).contains k && !g k))) := by
    intro g st
    simp [deleteFile, htr, hvalid, hfind]
  refine ⟨?_, ?_, ?_, ?_, ?_, ?_⟩
  · rw [hred]
  · rw [hred]
  · rw [hred]
    simp
  · rw [hred]
    simp only [List.dropLast_concat]
    intro op hop
    obtain ⟨k, hk, hkop⟩ := List.mem_map.mp hop
    exact ⟨k, hk, hkop.symm⟩
  · rw [hred]
  · intro g st
    rw [hred, hred]
    exact ⟨rfl, rfl⟩

/-- Image record whose preview object will be missing from the store in the
single-delete witness. -/
def wrecImg : DbRecord :=
  { rid := "649f1f77bcf86cd799439013"
    doc :=
      { filename := "photo.jpg", mimeType := "image/png", type := .image
        size := 2048
        s3Key := "uploads/u1/2026-10-11/aaaaaaaa-bbbb-4ccc-8ddd-eeeeeeeeeeee-photo.jpg"
        src := "https://cdn.example.com/uploads/u1/2026-10-11/aaaaaaaa-bbbb-4ccc-8ddd-eeeeeeeeeeee-photo.jpg"
        preview := "https://cdn.example.com/uploads/u1/2026-10-11/preview-aaaaaaaa-bbbb-4ccc-8ddd-eeeeeeeeeeee.jpg"
        details :=
          { src := "https://cdn.example.com/uploads/u1/2026-10-11/aaaaaaaa-bbbb-4ccc-8ddd-eeeeeeeeeeee-photo.jpg"
            width := some 800, height := some 600, duration := none
            preview := "https://cdn.example.com/uploads/u1/2026-10-11/preview-aaaaaaaa-bbbb-4ccc-8ddd-eeeeeeeeeeee.jpg" }
        uploadedBy := "u1", uploadedAt := 0 } }

/-- Claim C9, witness: deleting an image record whose preview object is
absent (the store holds only the original, and the reconstructed preview
delete fails) still returns success, traces the databasse delete last, and
removes the metadata record. -/
theorem deleteFile_db_removal_witness :
    (deleteFile [wrecImg] [wrecImg.doc.s3Key]
        (fun k => !(k == wrecImg.doc.s3Key)) (some "u1")
        "649f1f77bcf86cd799439013").1
      = .deleted wrecImg.rid wrecImg.doc.filename wrecImg.doc.s3Key
          (getS3KeysForFile wrecImg.doc)
    ∧ (deleteFile [wrecImg] [wrecImg.doc.s3Key]
        (fun k => !(k == wrecImg.doc.s3Key)) (some "u1")
        "649f1f77bcf86cd799439013").2.1
      = (getS3KeysForFile wrecImg.doc).map DeleteOp.s3Del
          ++ [DeleteOp.dbDel "649f1f77bcf86cd799439013"]
    ∧ (deleteFile [wrecImg] [wrecImg.doc.s3Key]
        (fun k => !(k == wrecImg.doc.s3Key)) (some "u1")
        "649f1f77bcf86cd799439013").2.2.1
      = [wrecImg].filter (fun r =>
          !(r.rid == "649f1f77bcf86cd799439013" && r.doc.uploadedBy == "u1")) := by
  have h := deleteFile_db_removal_after_all_object_deletes
    [wrecImg] [wrecImg.doc.s3Key] (fun k => !(k == wrecImg.doc.s3Key))
    "u1" "649f1f77bcf86cd799439013" wrecImg (by decide) (by decide)
  exact ⟨h.1, h.2.1, h.2.2.2.2.1⟩

/-! ### Claim C8 -/

/-- Record produced by an image ingestion, as stored in the collection; its
stored name field is filename, there is no originalName field. -/
def c8doc : FileDoc :=
  { filename := "Holiday-Photo.jpg", mimeType := "image/jpeg", type := .image
    size := 100
    s3Key := "uploads/u1/2026-10-11/22222222-3333-4444-8555-666666666666-Holiday-Photo.jpg"
    src := "https://cdn.example.com/uploads/u1/2026-10-11/22222222-3333-4444-8555-666666666666-Holiday-Photo.jpg"
    preview := "https://cdn.example.com/uploads/u1/2026-10-11/preview-22222222-3333-4444-8555-666666666666.jpg"
    details :=
      { src := "https://cdn.example.com/uploads/u1/2026-10-11/22222222-3333-4444-8555-666666666666-Holiday-Photo.jpg"
        width := some 800, height := some 600, duration := none
        preview := "https://cdn.example.com/uploads/u1/2026-10-11/preview-22222222-3333-4444-8555-666666666666.jpg" }
    uploadedBy := "u1", uploadedAt := 0 }

/-- Claim C8, evaluated at the failing input: the search filter's text
clause targets a field named originalName, which the stored documents do not
carry (uploadFile persists the name under filename), so the owner's record
whose filename contains the query text case-insensitively does not match the
built filter; the claim would require it to match. -/
theorem search_filter_misses_filename_match :
    matchesSearchFilter
        (buildSearchFilter "u1" ⟨some "photo", none, none, none, none, none, none⟩)
        c8doc = false
    ∧ ciContains c8doc.filename "photo" = true
    ∧ c8doc.uploadedBy = "u1"
    ∧ FileDoc.getStrField c8doc "originalName" = none :=
  ⟨by decide, by decide, rfl, rfl⟩
